import Mathlib

/-!
Shallow embedding of `src/main.py` (a FastAPI service that uploads an Excel
spreadsheet, normalizes it, serializes it to records, renders plots per
numeric column, and serves the generated artifacts), together with theorems
settling the specification claims.

Modelling conventions:
* A spreadsheet cell is `Value`: a finite number, missing (NaN), `+inf`, `-inf`.
* A `DataFrame` is a list of named columns with a numeric-dtype flag.
* The filesystem is a list of `(path, content)` pairs of strings; path lookup
  resolves `.` and `..` segments the way `os.path.exists` does, via a
  character-level split on `'/'`.
* `pd.read_excel` is an opaque collaborator, represented by an
  `Except String DataFrame` argument (its outcome) to the endpoint functions.
* Matplotlib rendering is opaque; `plt.savefig` writes an opaque PNG content
  string determined by the target path.
-/

namespace DaApi

/-- A single spreadsheet cell: finite number, NaN, or a signed infinity. -/
inductive Value where
  | num (q : Int)
  | missing
  | posInf
  | negInf
deriving DecidableEq, Repr

/-- A dataframe column: name, whether its dtype is numeric, and its cells. -/
structure Column where
  name : String
  numeric : Bool
  cells : List Value
deriving DecidableEq, Repr

/-- In-memory table produced by `pd.read_excel`. -/
structure DataFrame where
  cols : List Column
deriving DecidableEq, Repr

/-- Model of `len(df)`: the number of rows (length of the first column; 0 if empty). -/
def numRows (df : DataFrame) : Nat :=
  match df.cols with
  | [] => 0
  | c :: _ => c.cells.length

/-- Well-formedness: all columns have the same length (pandas invariant). -/
def WellFormed (df : DataFrame) : Prop :=
  ∀ c ∈ df.cols, c.cells.length = numRows df

instance (df : DataFrame) : Decidable (WellFormed df) := by
  unfold WellFormed; infer_instance

/-- Model of `df.fillna(0)` followed by `df.replace([inf, -inf], 0)` on one cell. -/
def normalizeValue : Value → Value
  | .missing => .num 0
  | .posInf => .num 0
  | .negInf => .num 0
  | .num q => .num q

/-- Normalization of one column (all columns are scanned, whatever the kind). -/
def normalizeColumn (c : Column) : Column :=
  ⟨c.name, c.numeric, c.cells.map normalizeValue⟩

/-- Model of `df.fillna(0, inplace=True); df.replace([inf,-inf], 0, inplace=True)`. -/
def normalizeTable (df : DataFrame) : DataFrame :=
  ⟨df.cols.map normalizeColumn⟩

/-- A value is clean when it is neither missing nor an infinity. -/
def cleanValue : Value → Prop
  | .num _ => True
  | .missing => False
  | .posInf => False
  | .negInf => False

instance (v : Value) : Decidable (cleanValue v) := by
  cases v <;> unfold cleanValue <;> infer_instance

/-- One row of `df.to_dict(orient='records')`: column name ↦ cell, in column order. -/
def rowRecord (df : DataFrame) (i : Nat) : List (String × Value) :=
  df.cols.map (fun c => (c.name, c.cells.getD i (.num 0)))

/-- Model of `df.to_dict(orient='records')`: one record per row, in row order. -/
def to_records (df : DataFrame) : List (List (String × Value)) :=
  (List.range (numRows df)).map (rowRecord df)

/-- Model of `df.select_dtypes(include=['number']).columns`: names of numeric columns. -/
def numericColumns (df : DataFrame) : List String :=
  (df.cols.filter (fun c => c.numeric)).map (fun c => c.name)

end DaApi

namespace DaApi

/-! ### Path and filesystem model -/

/-- Model of `str.split('/')` at character level: `"a/b" ↦ [a, b]`, `"" ↦ [""]`. -/
def splitOnSlash : List Char → List (List Char)
  | [] => [[]]
  | c :: cs =>
    let r := splitOnSlash cs
    if c = '/' then [] :: r
    else
      match r with
      | [] => [[c]]
      | seg :: rest => (c :: seg) :: rest

/-- Resolution of `.` and `..` segments, as in `os.path` semantics. The
accumulator holds already-resolved segments in reverse order. -/
def resolve (abs : Bool) : List (List Char) → List (List Char) → List (List Char)
  | acc, [] => acc.reverse
  | acc, s :: rest =>
    if s = [] ∨ s = ['.'] then resolve abs acc rest
    else if s = ['.', '.'] then
      match acc with
      | [] => resolve abs (if abs then [] else [['.', '.']]) rest
      | a :: as =>
        if a = ['.', '.'] then resolve abs (s :: a :: as) rest
        else resolve abs as rest
    else resolve abs (s :: acc) rest

/-- Normal form of a path: absolute flag and resolved segment list. -/
def normSegs (p : String) : Bool × List (List Char) :=
  let abs : Bool :=
    match p.data with
    | '/' :: _ => true
    | _ => false
  (abs, resolve abs [] (splitOnSlash p.data))

/-- The filesystem: a list of `(path, content)` entries. -/
abbrev FS := List (String × String)

/-- Model of `os.path.exists`: some entry's path resolves to the same normal form. -/
def pathExists (fs : FS) (p : String) : Bool :=
  fs.any (fun e => normSegs e.1 = normSegs p)

/-- Content of the file a path resolves to (empty when absent). -/
def readFile (fs : FS) (p : String) : String :=
  match fs.find? (fun e => normSegs e.1 = normSegs p) with
  | some e => e.2
  | none => ""

/-- Write (create or overwrite) a file at a path. -/
def writeFile (fs : FS) (p : String) (content : String) : FS :=
  if fs.any (fun e => normSegs e.1 = normSegs p) then
    fs.map (fun e => if normSegs e.1 = normSegs p then (e.1, content) else e)
  else
    fs ++ [(p, content)]

/-- Model of `os.path.join(d, f)`: an absolute `f` replaces the directory prefix. -/
def joinPath (d f : String) : String :=
  match f.data with
  | '/' :: _ => f
  | _ => d ++ "/" ++ f

/-- The directory-listing test for one filesystem entry: the entry's resolved
path must be a direct child of the resolved directory; the result is its
final segment (the file name). -/
def listEntry (dir : String) (e : String × String) : Option String :=
  if (normSegs e.1).1 = (normSegs dir).1 ∧
      (normSegs e.1).2.dropLast = (normSegs dir).2 ∧ (normSegs e.1).2 ≠ [] then
    some (String.mk ((normSegs e.1).2.getLastD []))
  else none

/-- Model of `os.listdir(dir)`: names of entries whose resolved path is a direct child
of the resolved directory. -/
def listdir (fs : FS) (dir : String) : List String :=
  fs.filterMap (listEntry dir)

/-- Model of `os.path.basename`: the part after the last slash. -/
def basename (p : String) : String :=
  String.mk ((splitOnSlash p.data).getLastD [])

end DaApi

namespace DaApi

/-! ### HTTP surface -/

/-- Observable content of an HTTP response produced by the four handlers.
Fields not used by a given response shape are left at neutral values. -/
structure Resp where
  status : Nat
  detail : String
  message : String
  num_rows : Nat
  data : List (List (String × Value))
  plots : List String
  download_all : String
  mediaType : String
  fileName : String
  body : String
deriving DecidableEq, Repr

/-- A JSON error response `{"detail": d}` with the given status. -/
def errResp (status : Nat) (d : String) : Resp :=
  ⟨status, d, "", 0, [], [], "", "", "", ""⟩

/-- The constant `PLOT_DIR = "plots"`. -/
def PLOT_DIR : String := "plots"

/-- Model of `str(HTTPException(code, detail))` in starlette: `"{code}: {detail}"`. -/
def httpExnStr (code : Nat) (d : String) : String :=
  toString code ++ ": " ++ d

/-- Detail text of the invalid-extension rejection. -/
def invalidFormatMsg : String :=
  "Invalid file format. Only Excel files are allowed."

/-- Model of `s.endswith(t)`: `t`'s characters are a suffix of `s`'s characters. -/
def strEndsWith (s t : String) : Bool :=
  t.data.reverse.isPrefixOf s.data.reverse

/-- Model of `file.filename.endswith(('.xls', '.xlsx'))`. -/
def validExt (filename : String) : Bool :=
  strEndsWith filename ".xls" || strEndsWith filename ".xlsx"

/-- The wrapper applied by `upload_file`'s `except` clause. -/
def wrapUpload (e : String) : String :=
  "An error occurred while processing the file: " ++ e

/-- The wrapper applied by `generate_all_plots`'s `except` clause. -/
def wrapPlots (e : String) : String :=
  "An error occurred while creating plots: " ++ e

/-- Handler for `POST /upload/`: validate the extension, parse (outcome given by the
`parse` argument), normalize, serialize. Inner `HTTPException`s are caught by
the broad `except` and re-raised with wrapped detail, still status 400. -/
def upload_file (filename : String) (parse : Except String DataFrame) : Resp :=
  if validExt filename then
    match parse with
    | .error e => errResp 400 (wrapUpload e)
    | .ok df =>
      let df' := normalizeTable df
      ⟨200, "", "File processed successfully", numRows df', to_records df',
        [], "", "", "", ""⟩
  else
    errResp 400 (wrapUpload (httpExnStr 400 invalidFormatMsg))

/-- The list `plot_types = ["line", "bar", "scatter", "hist"]`. -/
def plot_types : List String := ["line", "bar", "scatter", "hist"]

/-- One iteration of the sweep's inner loop: `none` exactly when the scatter
plot is skipped (`continue`), otherwise the artifact name that is saved. -/
def sweepStep (nc : List String) (column pt : String) : Option String :=
  if pt = "scatter" ∧ nc.length < 2 then none
  else some (column ++ "_" ++ pt ++ ".png")

/-- Artifact names produced by the double loop over numeric columns and plot
types, in production order. -/
def sweepNames (nc : List String) : List String :=
  nc.flatMap (fun column => plot_types.filterMap (sweepStep nc column))

/-- The sweep: fails with the no-numeric-columns `HTTPException` detail when
`numeric_columns` is empty, else returns the artifact names in order. -/
def sweepResult (df : DataFrame) : Except String (List String) :=
  let nc := numericColumns df
  if nc.isEmpty then .error "No numeric columns found to plot."
  else .ok (sweepNames nc)

/-- Opaque content written by `plt.savefig` at a path. -/
def pngContent (p : String) : String := "PNG:" ++ p

/-- Download URL advertised for one artifact (built from the path's basename). -/
def downloadURL (name : String) : String :=
  "http://127.0.0.1:8000/download-plot/?plot_name=" ++ name

/-- Handler for `POST /generate-plots/`: validate, parse, normalize, sweep; each produced
plot is saved under `PLOT_DIR`, and the response lists download URLs for the
basenames of the saved paths. Errors map to 400 with wrapped detail. -/
def generate_all_plots (filename : String) (parse : Except String DataFrame)
    (fs : FS) : Resp × FS :=
  if validExt filename then
    match parse with
    | .error e => (errResp 400 (wrapPlots e), fs)
    | .ok df =>
      let df' := normalizeTable df
      match sweepResult df' with
      | .error msg => (errResp 400 (wrapPlots (httpExnStr 400 msg)), fs)
      | .ok names =>
        let plot_paths := names.map (fun n => joinPath PLOT_DIR n)
        let fs' := plot_paths.foldl (fun acc p => writeFile acc p (pngContent p)) fs
        (⟨200, "", "Plots generated successfully", 0, [],
          plot_paths.map (fun p => downloadURL (basename p)),
          "http://127.0.0.1:8000/download-all-plots/", "", "", ""⟩, fs')
  else
    (errResp 400 (wrapPlots (httpExnStr 400 invalidFormatMsg)), fs)

/-- Handler for `GET /download-plot/?plot_name=`: join the name onto `PLOT_DIR` and serve
the file when the path exists, else 404. No sanitization of `plot_name`. -/
def download_plot (fs : FS) (plot_name : String) : Resp :=
  let plot_path := joinPath PLOT_DIR plot_name
  if pathExists fs plot_path then
    ⟨200, "", "", 0, [], [], "", "image/png", plot_name, readFile fs plot_path⟩
  else
    errResp 404 "Plot not found"

/-- The zip built over `os.listdir(PLOT_DIR)`: entry name = file name,
entry content = the file's bytes. -/
def archive_all (fs : FS) : List (String × String) :=
  (listdir fs PLOT_DIR).map (fun n => (n, readFile fs (joinPath PLOT_DIR n)))

/-- Handler for `GET /download-all-plots/`: the `archive` argument is the outcome of
building the zip (an `IOError` surfaces as `.error`). Success is a binary
`application/zip` response named `all_plots.zip`; failure maps to 500. -/
def download_all_plots (archive : Except String (List (String × String))) : Resp :=
  match archive with
  | .ok entries =>
    ⟨200, "", "", 0, [], [], "", "application/zip", "all_plots.zip",
      String.intercalate "," (entries.map (fun e => e.1))⟩
  | .error e =>
    errResp 500 ("An error occurred while creating the zip file: " ++ e)

/-! ### Concrete fixtures -/

/-- Two numeric columns `A = [1,2,3]`, `B = [4,5,6]`. -/
def tAB : DataFrame :=
  ⟨[⟨"A", true, [.num 1, .num 2, .num 3]⟩, ⟨"B", true, [.num 4, .num 5, .num 6]⟩]⟩

/-- A table with missing and infinite cells in columns of both kinds. -/
def tMix : DataFrame :=
  ⟨[⟨"A", true, [.missing, .posInf]⟩, ⟨"B", false, [.negInf, .num 5]⟩]⟩

/-- A table with no numeric column. -/
def tNoNum : DataFrame := ⟨[⟨"N", false, [.missing, .num 1]⟩]⟩

/-- A table with exactly one numeric column. -/
def tOne : DataFrame := ⟨[⟨"A", true, [.num 1, .num 2]⟩]⟩

/-- A filesystem with one file outside the plot directory and no artifacts. -/
def fsOutside : FS := [("secret.txt", "top-secret")]

/-- A filesystem with one artifact and one file outside the plot directory. -/
def fsTrav : FS := [("plots/A_line.png", "img"), ("secret.txt", "top-secret")]

/-- A plain artifact name: nonempty, no separators, not `.` or `..`. -/
def plainName (n : String) : Prop :=
  n.data ≠ [] ∧ '/' ∉ n.data ∧ n.data ≠ ['.'] ∧ n.data ≠ ['.', '.']

instance (n : String) : Decidable (plainName n) := by
  unfold plainName
  infer_instance

/-- A filesystem holding exactly the given artifacts inside `PLOT_DIR`. -/
def storeFS (store : List (String × String)) : FS :=
  store.map (fun e => (PLOT_DIR ++ "/" ++ e.1, e.2))

end DaApi

namespace DaApi

/-! ### Helper lemmas -/

theorem normalizeValue_idem (v : Value) :
    normalizeValue (normalizeValue v) = normalizeValue v := by
  cases v <;> rfl

theorem cleanValue_normalizeValue (v : Value) : cleanValue (normalizeValue v) := by
  cases v <;> trivial

theorem numericColumns_normalizeTable (df : DataFrame) :
    numericColumns (normalizeTable df) = numericColumns df := by
  simp only [numericColumns, normalizeTable, List.filter_map, List.map_map]
  have h1 : ((fun c : Column => c.numeric) ∘ normalizeColumn) =
      fun c : Column => c.numeric := by
    funext c; rfl
  have h2 : ((fun c : Column => c.name) ∘ normalizeColumn) =
      fun c : Column => c.name := by
    funext c; rfl
  rw [h1, h2]

theorem normalizeColumn_idem (c : Column) :
    normalizeColumn (normalizeColumn c) = normalizeColumn c := by
  simp only [normalizeColumn, List.map_map]
  have h : normalizeValue ∘ normalizeValue = normalizeValue :=
    funext normalizeValue_idem
  rw [h]

theorem append3 (s a b t : String) :
    s ++ a ++ b ++ t = s ++ (a ++ (b ++ t)) := by
  rw [String.append_assoc, String.append_assoc]

instance {ε α : Type} [DecidableEq ε] [DecidableEq α] : DecidableEq (Except ε α) :=
  fun a b =>
    match a, b with
    | .ok x, .ok y =>
      if h : x = y then .isTrue (by rw [h]) else .isFalse (by simp [h])
    | .error x, .error y =>
      if h : x = y then .isTrue (by rw [h]) else .isFalse (by simp [h])
    | .ok _, .error _ => .isFalse (by simp)
    | .error _, .ok _ => .isFalse (by simp)

theorem splitOnSlash_slash (cs : List Char) :
    splitOnSlash ('/' :: cs) = [] :: splitOnSlash cs := by
  simp [splitOnSlash]

theorem splitOnSlash_cons (c : Char) (hc : c ≠ '/') (cs s : List Char)
    (r : List (List Char)) (h : splitOnSlash cs = s :: r) :
    splitOnSlash (c :: cs) = (c :: s) :: r := by
  simp only [splitOnSlash, h, if_neg hc]

theorem splitOnSlash_no_slash (l : List Char) (h : '/' ∉ l) :
    splitOnSlash l = [l] := by
  induction l with
  | nil => rfl
  | cons c cs ih =>
    have hc : c ≠ '/' := fun hh => h (by simp [hh])
    have ht : '/' ∉ cs := fun hh => h (List.mem_cons_of_mem _ hh)
    exact splitOnSlash_cons c hc cs cs [] (ih ht)

theorem splitOnSlash_plots (nd : List Char) (h : '/' ∉ nd) :
    splitOnSlash ('p' :: 'l' :: 'o' :: 't' :: 's' :: '/' :: nd) =
      [['p', 'l', 'o', 't', 's'], nd] := by
  have t0 := splitOnSlash_no_slash nd h
  have t1 : splitOnSlash ('/' :: nd) = [] :: [nd] := by
    rw [splitOnSlash_slash, t0]
  have t2 := splitOnSlash_cons 's' (by decide) _ _ _ t1
  have t3 := splitOnSlash_cons 't' (by decide) _ _ _ t2
  have t4 := splitOnSlash_cons 'o' (by decide) _ _ _ t3
  have t5 := splitOnSlash_cons 'l' (by decide) _ _ _ t4
  exact splitOnSlash_cons 'p' (by decide) _ _ _ t5

theorem resolve_plots_plain (nd : List Char) (h1 : nd ≠ []) (h2 : nd ≠ ['.'])
    (h3 : nd ≠ ['.', '.']) :
    resolve false [] [['p', 'l', 'o', 't', 's'], nd] =
      [['p', 'l', 'o', 't', 's'], nd] := by
  have step : resolve false [] (['p', 'l', 'o', 't', 's'] :: [nd]) =
      resolve false [['p', 'l', 'o', 't', 's']] [nd] := rfl
  rw [step]
  have hc : ¬(nd = [] ∨ nd = ['.']) := by
    rintro (h | h)
    exacts [h1 h, h2 h]
  simp [resolve, if_neg hc, if_neg h3]

theorem data_plots_append (n : String) :
    (PLOT_DIR ++ "/" ++ n).data = 'p' :: 'l' :: 'o' :: 't' :: 's' :: '/' :: n.data := by
  cases n with
  | mk d => rfl

theorem normSegs_plots_shape (n : String) :
    normSegs (PLOT_DIR ++ "/" ++ n) =
      (false,
        resolve false [] (splitOnSlash ('p' :: 'l' :: 'o' :: 't' :: 's' :: '/' :: n.data))) := by
  unfold normSegs
  rw [data_plots_append]
  rfl

theorem normSegs_store_entry (n : String) (hp : plainName n) :
    normSegs (PLOT_DIR ++ "/" ++ n) = (false, [['p', 'l', 'o', 't', 's'], n.data]) := by
  obtain ⟨h1, h2, h3, h4⟩ := hp
  rw [normSegs_plots_shape, splitOnSlash_plots n.data h2,
    resolve_plots_plain n.data h1 h3 h4]

theorem joinPath_plain (n : String) (h : '/' ∉ n.data) :
    joinPath PLOT_DIR n = PLOT_DIR ++ "/" ++ n := by
  unfold joinPath
  split
  · rename_i cs heq
    exact absurd (by rw [heq]; exact List.mem_cons_self _ _) h
  · rfl

theorem pathExists_store (store : List (String × String)) (pn : String)
    (hs : ∀ e ∈ store, plainName e.1) (hp : plainName pn) :
    pathExists (storeFS store) (joinPath PLOT_DIR pn) = true ↔
      pn ∈ store.map Prod.fst := by
  rw [joinPath_plain pn hp.2.1]
  unfold pathExists storeFS
  rw [List.any_map, List.any_eq_true]
  constructor
  · rintro ⟨e, he, hq⟩
    simp only [Function.comp] at hq
    rw [decide_eq_true_eq] at hq
    rw [normSegs_store_entry e.1 (hs e he), normSegs_store_entry pn hp] at hq
    have hd : e.1.data = pn.data := by simpa using hq
    exact List.mem_map.mpr ⟨e, he, String.ext hd⟩
  · intro hmem
    obtain ⟨e, he, hfst⟩ := List.mem_map.mp hmem
    refine ⟨e, he, ?_⟩
    simp only [Function.comp]
    rw [decide_eq_true_eq]
    rw [normSegs_store_entry e.1 (hs e he), normSegs_store_entry pn hp, hfst]

theorem listEntry_store (n : String) (hp : plainName n) (c : String) :
    listEntry PLOT_DIR (PLOT_DIR ++ "/" ++ n, c) = some n := by
  unfold listEntry
  rw [normSegs_store_entry n hp]
  rfl

theorem listdir_store (store : List (String × String)) :
    (∀ e ∈ store, plainName e.1) →
      listdir (storeFS store) PLOT_DIR = store.map Prod.fst := by
  induction store with
  | nil => intro _; rfl
  | cons e es ih =>
    intro hs
    have hp := hs e (List.mem_cons_self e es)
    have ih' := ih (fun x hx => hs x (List.mem_cons_of_mem e hx))
    show listdir ((PLOT_DIR ++ "/" ++ e.1, e.2) :: storeFS es) PLOT_DIR
      = e.1 :: es.map Prod.fst
    unfold listdir
    rw [List.filterMap_cons, listEntry_store e.1 hp e.2]
    show e.1 :: listdir (storeFS es) PLOT_DIR = e.1 :: es.map Prod.fst
    rw [ih']

end DaApi

namespace DaApi

/-! ### Claim theorems -/

/-- C2: for every well-formed loaded table, the normalizer (replace missing
and infinite values with zero) is idempotent, and after one application no
cell of any column, numeric or not, is missing or ±infinite. -/
theorem C2_normalizer_idempotent_total (df : DataFrame) (h : WellFormed df) :
    normalizeTable (normalizeTable df) = normalizeTable df ∧
    ∀ c ∈ (normalizeTable df).cols, ∀ v ∈ c.cells, cleanValue v := by
  constructor
  · simp only [normalizeTable, List.map_map]
    have hc : normalizeColumn ∘ normalizeColumn = normalizeColumn :=
      funext normalizeColumn_idem
    rw [hc]
  · intro c hc v hv
    simp only [normalizeTable, List.mem_map] at hc
    obtain ⟨c0, _, rfl⟩ := hc
    simp only [normalizeColumn, List.mem_map] at hv
    obtain ⟨v0, _, rfl⟩ := hv
    exact cleanValue_normalizeValue v0

/-- Witness for C2 at the concrete table `tMix`. -/
theorem C2_witness :
    WellFormed tMix ∧
    (normalizeTable (normalizeTable tMix) = normalizeTable tMix ∧
      ∀ c ∈ (normalizeTable tMix).cols, ∀ v ∈ c.cells, cleanValue v) :=
  ⟨by decide, C2_normalizer_idempotent_total tMix (by decide)⟩

/-- C4: for every table with exactly one numeric column `c`, the plot sweep
succeeds and produces exactly the line, bar and histogram artifact names for
`c`, in order, with no scatter artifact and no error (the scatter skip is a
silent no-op). -/
theorem C4_single_numeric_column_skips_scatter (df : DataFrame) (c : String)
    (h : numericColumns df = [c]) :
    sweepResult df = .ok [c ++ "_line.png", c ++ "_bar.png", c ++ "_hist.png"] := by
  have l1 : ("_" : String) ++ ("line" ++ ".png") = "_line.png" := by decide
  have l2 : ("_" : String) ++ ("bar" ++ ".png") = "_bar.png" := by decide
  have l3 : ("_" : String) ++ ("hist" ++ ".png") = "_hist.png" := by decide
  simp [sweepResult, h, sweepNames, plot_types, sweepStep, append3, l1, l2, l3]

/-- Witness for C4 at the concrete one-numeric-column table `tOne`. -/
theorem C4_witness :
    numericColumns tOne = ["A"] ∧
    sweepResult tOne = .ok ["A_line.png", "A_bar.png", "A_hist.png"] := by
  refine ⟨by decide, ?_⟩
  rw [C4_single_numeric_column_skips_scatter tOne "A" (by decide)]
  exact congrArg Except.ok (by decide)

/-- C6: for every filesystem state, the zip built by the download-all handler
has one entry per file currently listed in the plot directory, with entry
names equal to the file names, in the same order (hence equal name sets). -/
theorem C6_archive_names_match_directory (fs : FS) :
    (archive_all fs).map Prod.fst = listdir fs PLOT_DIR := by
  simp only [archive_all, List.map_map]
  have h : (Prod.fst ∘ fun n => (n, readFile fs (joinPath PLOT_DIR n))) = id := by
    funext n; rfl
  rw [h, List.map_id]

/-- C7: for every well-formed table, serialization to records yields one
record per row in row order, and every record's keys are exactly the column
names in column order. -/
theorem C7_records_shape (df : DataFrame) (h : WellFormed df) :
    (to_records df).length = numRows df ∧
    ∀ r ∈ to_records df, r.map Prod.fst = df.cols.map (fun c => c.name) := by
  constructor
  · simp [to_records]
  · intro r hr
    simp only [to_records, List.mem_map, List.mem_range] at hr
    obtain ⟨i, _, rfl⟩ := hr
    simp [rowRecord, List.map_map, Function.comp]

/-- Witness for C7 at the concrete table `tAB`. -/
theorem C7_witness :
    WellFormed tAB ∧
    ((to_records tAB).length = numRows tAB ∧
      ∀ r ∈ to_records tAB, r.map Prod.fst = tAB.cols.map (fun c => c.name)) :=
  ⟨by decide, C7_records_shape tAB (by decide)⟩

/-- C8: for every filename that does not end in `.xls` or `.xlsx`, both POST
handlers return status 400 with a response fully determined before (and
independent of) the parse outcome, and the filesystem is unchanged. -/
theorem C8_invalid_extension_rejected (filename : String)
    (parse : Except String DataFrame) (fs : FS) (h : validExt filename = false) :
    upload_file filename parse =
      errResp 400 (wrapUpload (httpExnStr 400 invalidFormatMsg)) ∧
    generate_all_plots filename parse fs =
      (errResp 400 (wrapPlots (httpExnStr 400 invalidFormatMsg)), fs) := by
  constructor <;> simp [upload_file, generate_all_plots, h]

/-- C1: for the table with numeric columns `A=[1,2,3]`, `B=[4,5,6]`, the plot
sweep produces exactly the 8 artifacts `A_line.png, A_bar.png, A_scatter.png,
A_hist.png, B_line.png, B_bar.png, B_scatter.png, B_hist.png` in this order,
and the endpoint responds 200 listing download URLs for exactly these names
in this order, having written exactly these files under the plot directory. -/
theorem C1_two_column_sweep_artifacts :
    sweepResult (normalizeTable tAB) =
      .ok ["A_line.png", "A_bar.png", "A_scatter.png", "A_hist.png",
        "B_line.png", "B_bar.png", "B_scatter.png", "B_hist.png"] ∧
    (generate_all_plots "data.xlsx" (.ok tAB) []).1.status = 200 ∧
    (generate_all_plots "data.xlsx" (.ok tAB) []).1.plots =
      [downloadURL "A_line.png", downloadURL "A_bar.png",
        downloadURL "A_scatter.png", downloadURL "A_hist.png",
        downloadURL "B_line.png", downloadURL "B_bar.png",
        downloadURL "B_scatter.png", downloadURL "B_hist.png"] ∧
    ((generate_all_plots "data.xlsx" (.ok tAB) []).2).map Prod.fst =
      ["plots/A_line.png", "plots/A_bar.png", "plots/A_scatter.png",
        "plots/A_hist.png", "plots/B_line.png", "plots/B_bar.png",
        "plots/B_scatter.png", "plots/B_hist.png"] := by
  decide

/-- C3: for every table with zero numeric columns, the sweep fails with the
no-numeric-columns error, the endpoint returns 400, and the filesystem (the
artifact store) is unchanged by the request. -/
theorem C3_no_numeric_columns_400 (df : DataFrame) (filename : String) (fs : FS)
    (hn : numericColumns df = []) (hf : validExt filename = true) :
    sweepResult (normalizeTable df) = .error "No numeric columns found to plot." ∧
    (generate_all_plots filename (.ok df) fs).1.status = 400 ∧
    (generate_all_plots filename (.ok df) fs).2 = fs := by
  have hs : sweepResult (normalizeTable df) =
      .error "No numeric columns found to plot." := by
    simp [sweepResult, numericColumns_normalizeTable, hn]
  refine ⟨hs, ?_, ?_⟩ <;> simp [generate_all_plots, hf, hs, errResp]

/-- Witness for C3 at the concrete table `tNoNum`, over a nonempty store. -/
theorem C3_witness :
    numericColumns tNoNum = [] ∧ validExt "data.xls" = true ∧
    (sweepResult (normalizeTable tNoNum) =
        .error "No numeric columns found to plot." ∧
      (generate_all_plots "data.xls" (.ok tNoNum) [("plots/old.png", "o")]).1.status
        = 400 ∧
      (generate_all_plots "data.xls" (.ok tNoNum) [("plots/old.png", "o")]).2
        = [("plots/old.png", "o")]) :=
  ⟨by decide, by decide,
    C3_no_numeric_columns_400 tNoNum "data.xls" [("plots/old.png", "o")]
      (by decide) (by decide)⟩

/-- C5: the download-all handler returns 200 with a binary `application/zip`
body named `all_plots.zip` when the archive is built, and 500 with a JSON
detail message when the archive cannot be built. -/
theorem C5_download_all_statuses (a : Except String (List (String × String))) :
    (∀ entries, a = .ok entries →
      (download_all_plots a).status = 200 ∧
      (download_all_plots a).mediaType = "application/zip" ∧
      (download_all_plots a).fileName = "all_plots.zip") ∧
    (∀ e, a = .error e →
      (download_all_plots a).status = 500 ∧
      (download_all_plots a).detail =
        "An error occurred while creating the zip file: " ++ e) := by
  constructor
  · rintro entries rfl
    exact ⟨rfl, rfl, rfl⟩
  · rintro e rfl
    exact ⟨rfl, rfl⟩

/-- Witness for C5 on a concrete successful archive and a concrete failure. -/
theorem C5_witness :
    ((download_all_plots (.ok [("A_line.png", "img")])).status = 200 ∧
      (download_all_plots (.ok [("A_line.png", "img")])).mediaType
        = "application/zip" ∧
      (download_all_plots (.ok [("A_line.png", "img")])).fileName
        = "all_plots.zip") ∧
    ((download_all_plots (.error "disk full")).status = 500 ∧
      (download_all_plots (.error "disk full")).detail =
        "An error occurred while creating the zip file: " ++ "disk full") :=
  ⟨(C5_download_all_statuses (.ok [("A_line.png", "img")])).1 _ rfl,
    (C5_download_all_statuses (.error "disk full")).2 "disk full" rfl⟩

/-- C9 counterexample: on a filesystem whose plot directory holds no artifact
at all (so no artifact named `../secret.txt` exists in the store), requesting
`plot_name = ../secret.txt` returns 200 serving a file outside the store, not
the 404 the claim requires for every name absent from the store. -/
theorem C9_counterexample :
    listdir fsOutside PLOT_DIR = [] ∧
    (download_plot fsOutside "../secret.txt").status = 200 ∧
    (download_plot fsOutside "../secret.txt").body = "top-secret" ∧
    ¬(download_plot fsOutside "../secret.txt").status = 404 := by
  decide

/-- C9 amended: for every store of plainly-named artifacts (names nonempty,
without `/`, not `.` or `..`) and every plain `plot_name`, the artifact names
are exactly the directory listing, and the endpoint returns 200 with binary
`image/png` content when an artifact of that exact name exists in the store,
and 404 with detail `Plot not found` when no such artifact exists. For names
with separators or `..` segments the 404 direction fails (see the
counterexample). -/
theorem C9_download_plot_plain_names (store : List (String × String))
    (plot_name : String) (hs : ∀ e ∈ store, plainName e.1)
    (hp : plainName plot_name) :
    listdir (storeFS store) PLOT_DIR = store.map Prod.fst ∧
    (plot_name ∈ store.map Prod.fst →
      (download_plot (storeFS store) plot_name).status = 200 ∧
      (download_plot (storeFS store) plot_name).mediaType = "image/png") ∧
    (plot_name ∉ store.map Prod.fst →
      download_plot (storeFS store) plot_name = errResp 404 "Plot not found") := by
  refine ⟨listdir_store store hs, ?_, ?_⟩
  · intro hmem
    have hex : pathExists (storeFS store) (joinPath PLOT_DIR plot_name) = true :=
      (pathExists_store store plot_name hs hp).mpr hmem
    simp [download_plot, hex]
  · intro hmem
    have hex : pathExists (storeFS store) (joinPath PLOT_DIR plot_name) = false := by
      rw [Bool.eq_false_iff]
      exact fun hh => hmem ((pathExists_store store plot_name hs hp).mp hh)
    simp [download_plot, hex]

/-- Witness for the amended C9 at a one-artifact store: the stored name is
served with 200, an absent plain name gets 404. -/
theorem C9_amended_witness :
    ((download_plot (storeFS [("A_line.png", "img")]) "A_line.png").status = 200 ∧
      (download_plot (storeFS [("A_line.png", "img")]) "A_line.png").mediaType
        = "image/png") ∧
    download_plot (storeFS [("A_line.png", "img")]) "B_hist.png"
      = errResp 404 "Plot not found" :=
  ⟨(C9_download_plot_plain_names [("A_line.png", "img")] "A_line.png"
      (by decide) (by decide)).2.1 (by decide),
    (C9_download_plot_plain_names [("A_line.png", "img")] "B_hist.png"
      (by decide) (by decide)).2.2 (by decide)⟩

/-- C10: `GET /download-plot/` applies no sanitization: for every filesystem
and every string `plot_name`, whenever the path obtained by joining the plot
directory with `plot_name` exists, the response is 200 serving that path's
content (even outside the store); moreover an absolute `plot_name` replaces
the directory prefix entirely on join. -/
theorem C10_no_sanitization (fs : FS) (plot_name : String)
    (h : pathExists fs (joinPath PLOT_DIR plot_name) = true) :
    download_plot fs plot_name =
      ⟨200, "", "", 0, [], [], "", "image/png", plot_name,
        readFile fs (joinPath PLOT_DIR plot_name)⟩ ∧
    ∀ p : String, ∀ cs : List Char, p.data = '/' :: cs → joinPath PLOT_DIR p = p := by
  constructor
  · simp [download_plot, h]
  · intro p cs heq
    unfold joinPath
    split
    · rfl
    · rename_i hne
      exact absurd heq (hne cs)

/-- Witness for C10: a traversal name serves `secret.txt`, which lies outside
the artifact store directory. -/
theorem C10_witness :
    pathExists fsTrav (joinPath PLOT_DIR "../secret.txt") = true ∧
    download_plot fsTrav "../secret.txt" =
      ⟨200, "", "", 0, [], [], "", "image/png", "../secret.txt", "top-secret"⟩ := by
  refine ⟨by decide, ?_⟩
  rw [(C10_no_sanitization fsTrav "../secret.txt" (by decide)).1]
  decide

/-- Witness for C8 at filename `data.csv` (with a parse that would succeed,
showing the rejection does not depend on parsing). -/
theorem C8_witness :
    validExt "data.csv" = false ∧
    upload_file "data.csv" (.ok tAB) =
      errResp 400 (wrapUpload (httpExnStr 400 invalidFormatMsg)) ∧
    generate_all_plots "data.csv" (.ok tAB) [] =
      (errResp 400 (wrapPlots (httpExnStr 400 invalidFormatMsg)), []) :=
  ⟨by decide, C8_invalid_extension_rejected "data.csv" (.ok tAB) [] (by decide)⟩

end DaApi
